import Mathlib

/-!
Verification development for the pdf-highlighter similarity-search engine.

The embedding models the TypeScript sources:
  - src/lib/pdf-node-comparator.ts   (grouping, signatures, scorer)
  - src/lib/text-similarity.ts       (n-gram matcher; DOM orchestrator)
  - src/lib/similar-section-finder.ts (text-stream orchestrator)

Modelling conventions:
  - JavaScript numbers (IEEE-754 doubles) are modelled exactly: finite
    values as rationals, plus explicit NaN and signed Infinity values in
    the type JsNum below.  Rounding error and negative zero are not
    modelled; every decimal literal of the source (0.25, 0.8, ...) is read
    as the exact rational it denotes.  All divisions of the source that
    can produce NaN (0/0) or Infinity (x/0) are preserved.
  - JavaScript strings are modelled as Lean strings; String.prototype
    operations (split, trim, toLowerCase, join) are re-implemented below
    over the character list with JS semantics (including the [""] result
    of "".split(" ")).  The UTF-16 length of a BMP string equals its
    character count, which is what String.length measures here.
  - Array.prototype.sort is modelled by the stable List.mergeSort with
    the predicate (compare a b <= 0); ECMAScript guarantees a stable sort
    for a consistent comparator.
-/

/-- A JavaScript number: NaN, signed infinity, or a finite value
(modelled as an exact rational). -/
inductive JsNum where
  | nan : JsNum
  | inf : Bool → JsNum
  | num : ℚ → JsNum
deriving DecidableEq

/-- JS addition. -/
def jadd : JsNum → JsNum → JsNum
  | .nan, _ => .nan
  | _, .nan => .nan
  | .inf s, .inf t => if s = t then .inf s else .nan
  | .inf s, .num _ => .inf s
  | .num _, .inf s => .inf s
  | .num a, .num b => .num (a + b)

/-- JS negation. -/
def jneg : JsNum → JsNum
  | .nan => .nan
  | .inf s => .inf (!s)
  | .num a => .num (-a)

/-- JS subtraction. -/
def jsub (x y : JsNum) : JsNum := jadd x (jneg y)

/-- JS multiplication. -/
def jmul : JsNum → JsNum → JsNum
  | .nan, _ => .nan
  | _, .nan => .nan
  | .inf s, .inf t => .inf (s = t)
  | .inf s, .num a => if a = 0 then .nan else .inf (s = decide (0 < a))
  | .num a, .inf s => if a = 0 then .nan else .inf (s = decide (0 < a))
  | .num a, .num b => .num (a * b)

/-- JS division: 0/0 is NaN, x/0 for x nonzero is signed infinity. -/
def jdiv : JsNum → JsNum → JsNum
  | .nan, _ => .nan
  | _, .nan => .nan
  | .inf _, .inf _ => .nan
  | .inf s, .num b => if b < 0 then .inf (!s) else .inf s
  | .num _, .inf _ => .num 0
  | .num a, .num b =>
    if b = 0 then (if a = 0 then .nan else .inf (decide (0 < a)))
    else .num (a / b)

/-- JS strict less-than: false whenever either operand is NaN. -/
def jlt : JsNum → JsNum → Bool
  | .nan, _ => false
  | _, .nan => false
  | .inf s, .inf t => !s && t
  | .inf s, .num _ => !s
  | .num _, .inf t => t
  | .num a, .num b => decide (a < b)

/-- Math.min: NaN if either operand is NaN. -/
def jmin : JsNum → JsNum → JsNum
  | .nan, _ => .nan
  | _, .nan => .nan
  | x, y => if jlt x y then x else y

/-- Math.max: NaN if either operand is NaN. -/
def jmax : JsNum → JsNum → JsNum
  | .nan, _ => .nan
  | _, .nan => .nan
  | x, y => if jlt x y then y else x

/-- Math.abs. -/
def jabs : JsNum → JsNum
  | .nan => .nan
  | .inf _ => .inf true
  | .num a => .num |a|

/-! JavaScript string primitives, re-implemented over character lists. -/

/-- Whitespace test modelling the regex class \s (restricted to the ASCII
whitespace characters that occur in PDF text content). -/
def isWsChar (c : Char) : Bool :=
  c = ' ' || c = '\t' || c = '\n' || c = '\r' || c = '\x0b' || c = '\x0c'

/-- String.prototype.trim: drop leading and trailing whitespace. -/
def trimWsList (l : List Char) : List Char :=
  ((l.dropWhile isWsChar).reverse.dropWhile isWsChar).reverse

/-- Auxiliary for replace(/\s+/g, " "): the flag records whether the
previous character was whitespace (so a run contributes one space). -/
def collapseWsAux : Bool → List Char → List Char
  | _, [] => []
  | prevWs, c :: rest =>
    if isWsChar c then
      if prevWs then collapseWsAux true rest
      else ' ' :: collapseWsAux true rest
    else c :: collapseWsAux false rest

/-- text.toLowerCase(): character-wise lowercasing. -/
def jsToLower (s : String) : String := ⟨s.data.map Char.toLower⟩

/-- String.prototype.trim on a string. -/
def jsTrim (s : String) : String := ⟨trimWsList s.data⟩

/-- text.toLowerCase().trim(): lowercase then trim. -/
def jsLowerTrim (s : String) : String := ⟨trimWsList (s.data.map Char.toLower)⟩

/-- text.toLowerCase().trim().replace(/\s+/g, " "): the normalization
used by text-similarity.ts (lines 25, 96-97) and
similar-section-finder.ts (line 56). -/
def jsNormalize (s : String) : String :=
  ⟨collapseWsAux false (trimWsList (s.data.map Char.toLower))⟩

/-- String.prototype.split(sep) for a single-character separator: every
occurrence separates, so adjacent separators and boundary separators
produce empty fragments, and splitting the empty string yields [""]. -/
def jsSplitCharList (sep : Char) : List Char → List (List Char)
  | [] => [[]]
  | c :: rest =>
    if c = sep then [] :: jsSplitCharList sep rest
    else match jsSplitCharList sep rest with
      | [] => [[c]]
      | w :: ws => (c :: w) :: ws

/-- normalized.split(" ") on a string. -/
def jsSplitSpace (s : String) : List String :=
  (jsSplitCharList ' ' s.data).map List.asString

/-- text.split(/\s+/): each whitespace character separates.  Runs of
whitespace produce empty fragments (where the regex would not), but
every use site filters by a positive length bound, which removes the
empty fragments, so the resulting word multiset is the same. -/
def jsSplitWs (s : String) : List String :=
  (s.data.foldr
    (fun c acc =>
      if isWsChar c then [] :: acc
      else match acc with
        | [] => [[c]]
        | w :: ws => (c :: w) :: ws)
    [[]]).map List.asString

/-- Array.prototype.join(" "). -/
def jsJoinSpace : List String → String
  | [] => ""
  | [w] => w
  | w :: rest => w ++ " " ++ jsJoinSpace rest

/-- String.prototype.includes: substring containment. -/
def jsIncludes (s pat : String) : Bool := decide (pat.data <:+: s.data)

/-! The structural signature and the scorer of pdf-node-comparator.ts. -/

/-- GroupSignature (pdf-node-comparator.ts lines 38-47). -/
structure GroupSignature where
  elementCount : ℕ
  fontFamily : String
  avgFontSize : ℚ
  isBold : Bool
  textLength : ℕ
  lineHeight : ℚ
  left : ℚ
deriving DecidableEq

/-- The set of lowercase words of a text that are longer than minLen,
modelling new Set(text.toLowerCase().split(/\s+/).filter(w => w.length > minLen))
(scorer lines 361-362 with minLen = 2, gate lines 433-434 with minLen = 3). -/
def wordSet (t : String) (minLen : ℕ) : Finset String :=
  ((jsSplitWs (jsToLower t)).filter (fun w => minLen < w.length)).toFinset

/-- Jaccard similarity of two word sets as computed on scorer lines
366-368 and 437-439: union.size > 0 ? intersection.size / union.size : 0. -/
def jaccardQ (w1 w2 : Finset String) : ℚ :=
  if 0 < (w1 ∪ w2).card then ((w1 ∩ w2).card : ℚ) / ((w1 ∪ w2).card : ℚ) else 0

/-- Horizontal-position sub-score (scorer lines 338-340): 1 when the
left coordinates differ by less than 20px, otherwise max(0, 1 - diff/200).
All quantities are finite, so this sub-score is a plain rational. -/
def horizontalSimilarity (sig1 sig2 : GroupSignature) : ℚ :=
  let horizontalDiff := |sig1.left - sig2.left|
  if horizontalDiff < 20 then 1 else max 0 (1 - horizontalDiff / 200)

/-- countDiff (scorer lines 345-347): |c1 - c2| / max(c1, c2); NaN when
both counts are zero. -/
def countDiff (sig1 sig2 : GroupSignature) : JsNum :=
  jdiv (jabs (jsub (.num sig1.elementCount) (.num sig2.elementCount)))
    (jmax (.num sig1.elementCount) (.num sig2.elementCount))

/-- sizeDiff (scorer lines 352-354). -/
def sizeDiff (sig1 sig2 : GroupSignature) : JsNum :=
  jdiv (jabs (jsub (.num sig1.avgFontSize) (.num sig2.avgFontSize)))
    (jmax (.num sig1.avgFontSize) (.num sig2.avgFontSize))

/-- heightDiff (scorer lines 389-391). -/
def heightDiff (sig1 sig2 : GroupSignature) : JsNum :=
  jdiv (jabs (jsub (.num sig1.lineHeight) (.num sig2.lineHeight)))
    (jmax (.num sig1.lineHeight) (.num sig2.lineHeight))

/-- The scorer's local lengthRatio (lines 373-375 and 381-383):
min(textLength) / max(textLength); NaN when both lengths are zero. -/
def lenRatio (sig1 sig2 : GroupSignature) : JsNum :=
  jdiv (jmin (.num sig1.textLength) (.num sig2.textLength))
    (jmax (.num sig1.textLength) (.num sig2.textLength))

/-- Font-family sub-score (scorer lines 396-416): 1 for identical
strings, 0.7 when both families fall in the same coarse class, else 0. -/
def fontMatch (f1 f2 : String) : ℚ :=
  if f1 = f2 then 1
  else
    let bothSerif := jsIncludes (jsToLower f1) "serif" && jsIncludes (jsToLower f2) "serif"
    let bothSans := jsIncludes (jsToLower f1) "sans" && jsIncludes (jsToLower f2) "sans"
    let bothTimes := jsIncludes (jsToLower f1) "times" && jsIncludes (jsToLower f2) "times"
    let bothArial := jsIncludes (jsToLower f1) "arial" && jsIncludes (jsToLower f2) "arial"
    if bothSerif || bothSans || bothTimes || bothArial then 7/10 else 0

/-- Truthiness of an optional string argument: undefined and "" are falsy. -/
def jsTruthy (t : Option String) : Bool := !(t.getD "").isEmpty

/-- Text-content sub-score including its 0.15 weight (scorer lines
360-386).  When either text is missing or empty the source computes
Math.pow(lenRatio, 0.5) * 0.15; the square root (irrational on most
rationals) is kept parametric as powHalf, which every theorem below
either quantifies over or never reaches. -/
def textScorePart (powHalf : JsNum → JsNum) (sig1 sig2 : GroupSignature)
    (text1 text2 : Option String) : JsNum :=
  if jsTruthy text1 && jsTruthy text2 then
    let words1 := wordSet (text1.getD "") 2
    let words2 := wordSet (text2.getD "") 2
    if 0 < words1.card ∧ 0 < words2.card then
      .num (jaccardQ words1 words2 * (3/20))
    else
      jmul (lenRatio sig1 sig2) (.num (3/20))
  else
    jmul (powHalf (lenRatio sig1 sig2)) (.num (3/20))

/-- Bold sub-score (scorer line 421). -/
def boldMatch (b1 b2 : Bool) : ℚ := if b1 = b2 then 1 else 0

/-- The weighted sum score / weight of compareSignatures (lines 333-425),
before the column gate.  The score accumulator is a JsNum because the
three ratio sub-scores divide by max(...) without a zero guard; weight
accumulates the constants 0.25+0.1+0.15+0.15+0.1+0.2+0.15 = 1.1 on every
path (lines 342, 349, 356, 370/377/385, 393, 418, 423). -/
def mainScore (powHalf : JsNum → JsNum) (sig1 sig2 : GroupSignature)
    (text1 text2 : Option String) : JsNum :=
  let s1 : JsNum := .num (horizontalSimilarity sig1 sig2 * (1/4))
  let s2 := jadd s1 (jmul (jsub (.num 1) (jmin (jmul (countDiff sig1 sig2) (.num 2)) (.num 1))) (.num (1/10)))
  let s3 := jadd s2 (jmul (jsub (.num 1) (jmin (jmul (sizeDiff sig1 sig2) (.num 3)) (.num 1))) (.num (3/20)))
  let s4 := jadd s3 (textScorePart powHalf sig1 sig2 text1 text2)
  let s5 := jadd s4 (jmul (jsub (.num 1) (jmin (jmul (heightDiff sig1 sig2) (.num 2)) (.num 1))) (.num (1/10)))
  let s6 := jadd s5 (.num (fontMatch sig1.fontFamily sig2.fontFamily * (1/5)))
  let s7 := jadd s6 (.num (boldMatch sig1.isBold sig2.isBold * (3/20)))
  let weight : ℚ := 1/4 + 1/10 + 3/20 + 3/20 + 1/10 + 1/5 + 3/20
  if 0 < weight then jdiv s7 (.num weight) else .num 0

/-- compareSignatures (pdf-node-comparator.ts lines 332-456): the
weighted score followed by the column gate of lines 430-453, which
forces the result to 0 when the horizontal sub-score is below 0.8 and
the word-level (length > 3) Jaccard similarity is below 0.15. -/
def compareSignatures (powHalf : JsNum → JsNum) (sig1 sig2 : GroupSignature)
    (text1 text2 : Option String) : JsNum :=
  let finalScore := mainScore powHalf sig1 sig2 text1 text2
  if horizontalSimilarity sig1 sig2 < 4/5 then
    if jsTruthy text1 && jsTruthy text2 then
      let words1 := wordSet (text1.getD "") 3
      let words2 := wordSet (text2.getD "") 3
      if 0 < words1.card ∧ 0 < words2.card then
        if jaccardQ words1 words2 < 3/20 then .num 0 else finalScore
      else finalScore
    else finalScore
  else finalScore

/-! Grouping of text elements into sections (pdf-node-comparator.ts). -/

/-- A DOMRect: stored as left/top/width/height, with right and bottom
derived (right = left + width, bottom = top + height). -/
structure Rect where
  left : ℚ
  top : ℚ
  width : ℚ
  height : ℚ
deriving DecidableEq

/-- DOMRect.right. -/
def Rect.right (r : Rect) : ℚ := r.left + r.width

/-- DOMRect.bottom. -/
def Rect.bottom (r : Rect) : ℚ := r.top + r.height

/-- TextElementNode (pdf-node-comparator.ts lines 11-21).  The DOM
element handle is dropped; fontWeight is omitted because it is only used
upstream to derive isBold, which is kept. -/
structure TextElementNode where
  text : String
  bounds : Rect
  pageNumber : ℕ
  fontFamily : String
  fontSize : ℚ
  isBold : Bool
deriving DecidableEq

/-- Math.min over a non-empty list of rationals (the empty case never
occurs at the use sites, which all guard for non-emptiness). -/
def listMinD : List ℚ → ℚ
  | [] => 0
  | x :: xs => xs.foldl min x

/-- Math.max over a non-empty list of rationals. -/
def listMaxD : List ℚ → ℚ
  | [] => 0
  | x :: xs => xs.foldl max x

/-- The sort comparator of groupTextElementsIntoSections (lines 233-240):
by top, but elements whose tops are within 5px are ordered by left. -/
def jsSortCmp (a b : TextElementNode) : ℚ :=
  let yDiff := a.bounds.top - b.bounds.top
  if |yDiff| < 5 then a.bounds.left - b.bounds.left else yDiff

/-- The [...elements].sort(...) call (line 233), modelled as a stable
merge sort placing a before b when the comparator is non-positive. -/
def jsSortNodes (l : List TextElementNode) : List TextElementNode :=
  l.mergeSort (fun a b => decide (jsSortCmp a b ≤ 0))

/-- createSignature (pdf-node-comparator.ts lines 181-218).
Array.from(new Set(elements.map(e => e.fontFamily)))[0] is the first
distinct font family in insertion order, i.e. the first element's family. -/
def createSignature (elements : List TextElementNode) : GroupSignature :=
  match elements with
  | [] =>
    { elementCount := 0, fontFamily := "", avgFontSize := 0, isBold := false
      textLength := 0, lineHeight := 0, left := 0 }
  | e0 :: _ =>
    let primaryFontFamily := e0.fontFamily
    let avgFontSize := ((elements.map (fun e => e.fontSize)).sum) / (elements.length : ℚ)
    let isBold := elements.any (fun e => e.isBold)
    let textLength := (elements.map (fun e => e.text.length)).sum
    let minY := listMinD (elements.map (fun e => e.bounds.top))
    let maxY := listMaxD (elements.map (fun e => e.bounds.bottom))
    let minX := listMinD (elements.map (fun e => e.bounds.left))
    { elementCount := elements.length, fontFamily := primaryFontFamily
      avgFontSize := avgFontSize, isBold := isBold, textLength := textLength
      lineHeight := maxY - minY, left := minX }

/-- getGroupBounds (lines 292-310): the union bounding box, or a zero
rect for the empty list. -/
def getGroupBounds (elements : List TextElementNode) : Rect :=
  match elements with
  | [] => ⟨0, 0, 0, 0⟩
  | _ =>
    let minX := listMinD (elements.map (fun e => e.bounds.left))
    let minY := listMinD (elements.map (fun e => e.bounds.top))
    let maxX := listMaxD (elements.map (fun e => e.bounds.right))
    let maxY := listMaxD (elements.map (fun e => e.bounds.bottom))
    ⟨minX, minY, maxX - minX, maxY - minY⟩

/-- TextElementGroup (lines 26-33). -/
structure TextElementGroup where
  elements : List TextElementNode
  bounds : Rect
  text : String
  pageNumber : ℕ
  signature : GroupSignature
deriving DecidableEq

/-- createElementGroup (lines 315-325).  The source reads
elements[0].pageNumber, which throws on an empty array; the function is
only ever invoked on non-empty groups, and the model returns page 0 in
the unreachable empty case. -/
def createElementGroup (elements : List TextElementNode) : TextElementGroup :=
  { elements := elements
    bounds := getGroupBounds elements
    text := jsJoinSpace (elements.map (fun e => e.text))
    pageNumber := match elements with | [] => 0 | e0 :: _ => e0.pageNumber
    signature := createSignature elements }

/-- The scan loop of groupTextElementsIntoSections (lines 245-284): on
each sorted element, either extend currentGroup or close it and start a
new one; at the end the non-empty currentGroup is emitted.  The source
guards the push with currentGroup.length > 0 (lines 274, 282); the model
keeps the guard although currentGroup is never empty. -/
def emitGroup (currentGroup : List TextElementNode) : List TextElementGroup :=
  if currentGroup.isEmpty then [] else [createElementGroup currentGroup]

def groupLoop (maxLineGap maxColumnGap : ℚ) :
    List TextElementNode → List TextElementNode → List TextElementGroup
  | [], currentGroup => emitGroup currentGroup
  | element :: rest, currentGroup =>
    let groupBounds := getGroupBounds currentGroup
    let verticalGap := element.bounds.top - groupBounds.bottom
    let onSameLine :=
      element.bounds.top ≤ groupBounds.bottom ∧
      element.bounds.bottom ≥ groupBounds.top
    let horizontalOverlap :=
      ¬(element.bounds.right < groupBounds.left - maxColumnGap ∨
        element.bounds.left > groupBounds.right + maxColumnGap)
    if onSameLine ∨ (verticalGap ≥ 0 ∧ verticalGap ≤ maxLineGap ∧ horizontalOverlap) then
      groupLoop maxLineGap maxColumnGap rest (currentGroup ++ [element])
    else
      emitGroup currentGroup ++ groupLoop maxLineGap maxColumnGap rest [element]

/-- groupTextElementsIntoSections (pdf-node-comparator.ts lines 225-287). -/
def groupTextElementsIntoSections (elements : List TextElementNode)
    (maxLineGap : ℚ := 30) (maxColumnGap : ℚ := 150) : List TextElementGroup :=
  if elements.isEmpty then []
  else
    match jsSortNodes elements with
    | [] => []
    | e0 :: rest => groupLoop maxLineGap maxColumnGap rest [e0]

/-! The DOM-based orchestrator of text-similarity.ts (lines 217-420)
and the text-stream orchestrator of similar-section-finder.ts. -/

/-- The page-window computation of the DOM orchestrator
(text-similarity.ts lines 241-254), over JS (integer-valued) numbers:
start at max(1, current - floor(maxPages/2)), end at
min(totalPages, start + maxPages - 1), then widen a short window that
touches a boundary. -/
def pageWindow (totalPages currentPage maxPages : ℤ) : ℤ × ℤ :=
  let startPage := max 1 (currentPage - maxPages / 2)
  let endPage := min totalPages (startPage + maxPages - 1)
  if endPage - startPage + 1 < maxPages then
    if startPage = 1 then (startPage, min totalPages maxPages)
    else if endPage = totalPages then (max 1 (totalPages - maxPages + 1), endPage)
    else (startPage, endPage)
  else (startPage, endPage)

/-- Outcome of the prefix of the DOM orchestrator that the claims are
about: either the early empty return of lines 234-237, or the call into
extractAllTextElements (line 279) with the computed page window. -/
inductive OrchestratorStart where
  | rejected : OrchestratorStart
  | extractsWindow : ℤ × ℤ → OrchestratorStart
deriving DecidableEq

/-- The guard and page-window prefix of findSimilarSections in
text-similarity.ts (lines 231-259): reject when selectedText is falsy or
its raw (untrimmed) length is below MIN_TEXT_LENGTH = 10, otherwise
proceed to extraction over the window. -/
def findSimilarSectionsStart (selectedText : String)
    (totalPages currentPage maxPages : ℤ) : OrchestratorStart :=
  if selectedText.isEmpty || selectedText.length < 10 then .rejected
  else .extractsWindow (pageWindow totalPages currentPage maxPages)

/-- The input gate of findSimilarSections in similar-section-finder.ts
(lines 55-59): reject when the normalized selection is shorter than
MIN_TEXT_LENGTH = 15. -/
def textStreamGateRejects (selectedText : String) : Bool :=
  (jsNormalize selectedText).length < 15

/-! The n-gram matcher of text-similarity.ts (lines 19-191). -/

/-- SimilarityMatch (text-similarity.ts lines 5-10). -/
structure SimilarityMatch where
  text : String
  score : ℚ
  startIndex : ℕ
  endIndex : ℕ
deriving DecidableEq

/-- tokenizeIntoNgrams (text-similarity.ts lines 19-45): normalize,
split into words, and emit the joined n-grams of sizes minGram..maxGram.
The JS loops run gramSize from minGram to maxGram and i from 0 to
words.length - gramSize (no iterations when the bound is negative). -/
def tokenizeIntoNgrams (text : String) (minGram : ℕ := 2) (maxGram : ℕ := 3) :
    List String :=
  let normalized := jsNormalize text
  let words := (jsSplitSpace normalized).filter (fun w => 0 < w.length)
  if words.isEmpty then []
  else
    ((List.range' minGram (maxGram + 1 - minGram)).map (fun gramSize =>
      (List.range (words.length + 1 - gramSize)).map (fun i =>
        jsJoinSpace ((words.drop i).take gramSize)))).flatten

/-- calculateJaccardSimilarity (text-similarity.ts lines 54-79): set
sizes with the union computed by inclusion-exclusion, returning 0 when
the union is empty. -/
def calculateJaccardSimilarity (tokens1 tokens2 : List String) : ℚ :=
  let set1 := tokens1.toFinset
  let set2 := tokens2.toFinset
  let intersectionSize := (set1 ∩ set2).card
  let unionSize := set1.card + set2.card - intersectionSize
  if unionSize = 0 then 0 else (intersectionSize : ℚ) / (unionSize : ℚ)

/-- rangesOverlap (text-similarity.ts lines 182-191) over natural word
indices: !(end1 + 5 < start2 or start1 - 5 > end2); the second disjunct
start1 - 5 > end2 over JS numbers is end2 + 5 < start1. -/
def rangesOverlap (start1 end1 start2 end2 : ℕ) : Bool :=
  !(decide (end1 + 5 < start2) || decide (end2 + 5 < start1))

/-- Sorting matches by score descending, stable as in JS
(sort((a, b) => b.score - a.score)). -/
def sortByScoreDesc (matchList : List SimilarityMatch) : List SimilarityMatch :=
  matchList.mergeSort (fun a b => decide (b.score ≤ a.score))

/-- The accumulation loop of deduplicateOverlappingMatches (lines
161-176): keep a match when it overlaps no already-kept match. -/
def dedupLoop : List SimilarityMatch → List SimilarityMatch → List SimilarityMatch
  | [], nonOverlapping => nonOverlapping
  | m :: rest, nonOverlapping =>
    if nonOverlapping.any (fun e =>
        rangesOverlap m.startIndex m.endIndex e.startIndex e.endIndex) then
      dedupLoop rest nonOverlapping
    else
      dedupLoop rest (nonOverlapping ++ [m])

/-- deduplicateOverlappingMatches (text-similarity.ts lines 153-177). -/
def deduplicateOverlappingMatches (matchList : List SimilarityMatch) :
    List SimilarityMatch :=
  if matchList.isEmpty then [] else dedupLoop (sortByScoreDesc matchList) []

/-- findSimilarText (text-similarity.ts lines 88-148).  The window-size
bounds floor(count * 0.8) and ceil(count * 1.2) are computed in exact
natural arithmetic as 4*count/5 and (6*count+4)/5; the JS inner loop
breaks at the first windowSize with i + windowSize > corpusWords.length,
which (the bound being monotone in windowSize) is the filter below; the
score threshold test is applied to each pushed match. -/
def findSimilarText (searchText corpus : String) (threshold : ℚ := 4/5) :
    List SimilarityMatch :=
  let normalizedSearchText := jsNormalize searchText
  let normalizedCorpus := jsNormalize corpus
  if normalizedSearchText.length < 15 then []
  else
    let searchTokens := tokenizeIntoNgrams normalizedSearchText
    if searchTokens.isEmpty then []
    else
      let searchWords := jsSplitSpace normalizedSearchText
      let searchWordCount := searchWords.length
      let corpusWords := jsSplitSpace normalizedCorpus
      let minLength := max 1 (4 * searchWordCount / 5)
      let maxLength := (6 * searchWordCount + 4) / 5
      let matchList :=
        (((List.range (corpusWords.length + 1 - minLength)).map (fun i =>
          ((List.range' minLength (maxLength + 1 - minLength)).filter
              (fun windowSize => i + windowSize ≤ corpusWords.length)).map
            (fun windowSize =>
              let windowText := jsJoinSpace ((corpusWords.drop i).take windowSize)
              let windowTokens := tokenizeIntoNgrams windowText
              let score := calculateJaccardSimilarity searchTokens windowTokens
              SimilarityMatch.mk windowText score i (i + windowSize)))).flatten).filter
          (fun m => threshold ≤ m.score)
      sortByScoreDesc (deduplicateOverlappingMatches matchList)

/-! Arithmetic lemmas for the JsNum model. -/

theorem jadd_num (a b : ℚ) : jadd (.num a) (.num b) = .num (a + b) := rfl

theorem jmul_num (a b : ℚ) : jmul (.num a) (.num b) = .num (a * b) := rfl

theorem jsub_num (a b : ℚ) : jsub (.num a) (.num b) = .num (a - b) := by
  simp [jsub, jadd, jneg, sub_eq_add_neg]

theorem jabs_num (a : ℚ) : jabs (.num a) = .num |a| := rfl

theorem jdiv_num (a b : ℚ) (hb : b ≠ 0) :
    jdiv (.num a) (.num b) = .num (a / b) := by
  simp [jdiv, hb]

theorem jmin_num (a b : ℚ) : jmin (.num a) (.num b) = .num (min a b) := by
  by_cases h : a < b
  · simp [jmin, jlt, h, min_eq_left h.le]
  · simp [jmin, jlt, h, min_eq_right (not_lt.mp h)]

theorem jmax_num (a b : ℚ) : jmax (.num a) (.num b) = .num (max a b) := by
  by_cases h : a < b
  · simp [jmax, jlt, h, max_eq_right h.le]
  · simp [jmax, jlt, h, max_eq_left (not_lt.mp h)]

theorem jabs_jsub_comm (x y : JsNum) : jabs (jsub x y) = jabs (jsub y x) := by
  rcases x with _ | s | a <;> rcases y with _ | t | b <;>
    simp only [jsub, jadd, jneg, jabs]
  · rcases s <;> rcases t <;> simp
  · rw [← sub_eq_add_neg, ← sub_eq_add_neg, abs_sub_comm]

theorem jmin_comm (x y : JsNum) : jmin x y = jmin y x := by
  rcases x with _ | s | a <;> rcases y with _ | t | b <;> try rfl
  · rcases s <;> rcases t <;> rfl
  · rcases s <;> rfl
  · rcases t <;> rfl
  · rw [jmin_num, jmin_num, min_comm]

theorem jmax_comm (x y : JsNum) : jmax x y = jmax y x := by
  rcases x with _ | s | a <;> rcases y with _ | t | b <;> try rfl
  · rcases s <;> rcases t <;> rfl
  · rcases s <;> rfl
  · rcases t <;> rfl
  · rw [jmax_num, jmax_num, max_comm]

/-! Helper lemmas about the scorer's building blocks. -/

theorem wordSet_empty (minLen : ℕ) : wordSet "" minLen = ∅ := rfl

theorem jsTruthy_some_of_ne (t : String) (h : t ≠ "") :
    jsTruthy (some t) = true := by
  have he : t.isEmpty = false :=
    Bool.eq_false_iff.mpr (fun hh => h ((String.isEmpty_iff t).mp hh))
  simp [jsTruthy, he]

theorem jaccardQ_nonneg (w1 w2 : Finset String) : 0 ≤ jaccardQ w1 w2 := by
  unfold jaccardQ
  split_ifs with h
  · positivity
  · exact le_refl 0

theorem jaccardQ_le_one (w1 w2 : Finset String) : jaccardQ w1 w2 ≤ 1 := by
  unfold jaccardQ
  split_ifs with h
  · rw [div_le_one (by exact_mod_cast h)]
    exact_mod_cast Finset.card_le_card (Finset.inter_subset_union)
  · norm_num

theorem jaccardQ_comm (w1 w2 : Finset String) : jaccardQ w1 w2 = jaccardQ w2 w1 := by
  unfold jaccardQ
  rw [Finset.union_comm, Finset.inter_comm]

theorem jaccardQ_self (w : Finset String) (h : 0 < w.card) : jaccardQ w w = 1 := by
  unfold jaccardQ
  rw [Finset.union_self, Finset.inter_self, if_pos h, div_self (by exact_mod_cast h.ne')]

theorem horizontalSimilarity_nonneg (sig1 sig2 : GroupSignature) :
    0 ≤ horizontalSimilarity sig1 sig2 := by
  simp only [horizontalSimilarity]
  split_ifs with h
  · norm_num
  · exact le_max_left 0 _

theorem horizontalSimilarity_le_one (sig1 sig2 : GroupSignature) :
    horizontalSimilarity sig1 sig2 ≤ 1 := by
  simp only [horizontalSimilarity]
  split_ifs with h
  · norm_num
  · refine max_le (by norm_num) ?_
    have habs : (0:ℚ) ≤ |sig1.left - sig2.left| := abs_nonneg _
    have : (0:ℚ) ≤ |sig1.left - sig2.left| / 200 := by positivity
    linarith

theorem horizontalSimilarity_comm (sig1 sig2 : GroupSignature) :
    horizontalSimilarity sig1 sig2 = horizontalSimilarity sig2 sig1 := by
  unfold horizontalSimilarity
  rw [abs_sub_comm]

theorem horizontalSimilarity_self (sig : GroupSignature) :
    horizontalSimilarity sig sig = 1 := by
  unfold horizontalSimilarity
  norm_num

theorem countDiff_comm (sig1 sig2 : GroupSignature) :
    countDiff sig1 sig2 = countDiff sig2 sig1 := by
  unfold countDiff
  rw [jabs_jsub_comm, jmax_comm]

theorem sizeDiff_comm (sig1 sig2 : GroupSignature) :
    sizeDiff sig1 sig2 = sizeDiff sig2 sig1 := by
  unfold sizeDiff
  rw [jabs_jsub_comm, jmax_comm]

theorem heightDiff_comm (sig1 sig2 : GroupSignature) :
    heightDiff sig1 sig2 = heightDiff sig2 sig1 := by
  unfold heightDiff
  rw [jabs_jsub_comm, jmax_comm]

theorem lenRatio_comm (sig1 sig2 : GroupSignature) :
    lenRatio sig1 sig2 = lenRatio sig2 sig1 := by
  unfold lenRatio
  rw [jmin_comm, jmax_comm]

theorem boldMatch_comm (b1 b2 : Bool) : boldMatch b1 b2 = boldMatch b2 b1 := by
  unfold boldMatch
  rcases b1 <;> rcases b2 <;> rfl

theorem fontMatch_comm (f1 f2 : String) : fontMatch f1 f2 = fontMatch f2 f1 := by
  by_cases h : f1 = f2
  · subst h; rfl
  · have h2 : ¬ f2 = f1 := fun hh => h hh.symm
    simp only [fontMatch, if_neg h, if_neg h2, Bool.and_comm]

theorem fontMatch_nonneg (f1 f2 : String) : 0 ≤ fontMatch f1 f2 := by
  simp only [fontMatch]
  split_ifs <;> norm_num

theorem fontMatch_le_one (f1 f2 : String) : fontMatch f1 f2 ≤ 1 := by
  simp only [fontMatch]
  split_ifs <;> norm_num

theorem boldMatch_nonneg (b1 b2 : Bool) : 0 ≤ boldMatch b1 b2 := by
  unfold boldMatch
  split_ifs <;> norm_num

theorem boldMatch_le_one (b1 b2 : Bool) : boldMatch b1 b2 ≤ 1 := by
  unfold boldMatch
  split_ifs <;> norm_num

theorem ratioDiff_num_bounds (a b : ℚ) (ha : 0 ≤ a) (hb : 0 ≤ b)
    (h : ¬(a = 0 ∧ b = 0)) :
    ∃ u : ℚ, jdiv (jabs (jsub (.num a) (.num b))) (jmax (.num a) (.num b)) = .num u ∧
      0 ≤ u := by
  have hmax : (0:ℚ) < max a b := by
    rcases eq_or_lt_of_le ha with h1 | h1
    · rcases eq_or_lt_of_le hb with h2 | h2
      · exact absurd ⟨h1.symm, h2.symm⟩ h
      · exact lt_max_of_lt_right h2
    · exact lt_max_of_lt_left h1
  refine ⟨|a - b| / max a b, ?_, div_nonneg (abs_nonneg _) hmax.le⟩
  rw [jsub_num, jabs_num, jmax_num, jdiv_num _ _ hmax.ne']

theorem minMaxRatio_num_bounds (a b : ℚ) (ha : 0 ≤ a) (hb : 0 ≤ b)
    (h : ¬(a = 0 ∧ b = 0)) :
    ∃ u : ℚ, jdiv (jmin (.num a) (.num b)) (jmax (.num a) (.num b)) = .num u ∧
      0 ≤ u ∧ u ≤ 1 := by
  have hmax : (0:ℚ) < max a b := by
    rcases eq_or_lt_of_le ha with h1 | h1
    · rcases eq_or_lt_of_le hb with h2 | h2
      · exact absurd ⟨h1.symm, h2.symm⟩ h
      · exact lt_max_of_lt_right h2
    · exact lt_max_of_lt_left h1
  refine ⟨min a b / max a b, ?_, ?_, ?_⟩
  · rw [jmin_num, jmax_num, jdiv_num _ _ hmax.ne']
  · exact div_nonneg (le_min ha hb) hmax.le
  · rw [div_le_one hmax]
    exact le_trans (min_le_left a b) (le_max_left a b)

theorem subScorePart_bounds (d : JsNum) (u k w : ℚ) (hd : d = .num u)
    (hu : 0 ≤ u) (hk : 0 ≤ k) (hw : 0 ≤ w) :
    ∃ x : ℚ, jmul (jsub (.num 1) (jmin (jmul d (.num k)) (.num 1))) (.num w) = .num x ∧
      0 ≤ x ∧ x ≤ w := by
  subst hd
  refine ⟨(1 - min (u * k) 1) * w, ?_, ?_, ?_⟩
  · rw [jmul_num, jmin_num, jsub_num, jmul_num]
  · have hmin : min (u * k) 1 ≤ 1 := min_le_right _ _
    have : 0 ≤ 1 - min (u * k) 1 := by linarith
    exact mul_nonneg this hw
  · have h0 : 0 ≤ min (u * k) 1 := le_min (mul_nonneg hu hk) zero_le_one
    have h1 : 1 - min (u * k) 1 ≤ 1 := by linarith
    calc (1 - min (u * k) 1) * w ≤ 1 * w := mul_le_mul_of_nonneg_right h1 hw
    _ = w := one_mul w

theorem countDiff_num_bounds (sig1 sig2 : GroupSignature)
    (h : ¬(sig1.elementCount = 0 ∧ sig2.elementCount = 0)) :
    ∃ u : ℚ, countDiff sig1 sig2 = .num u ∧ 0 ≤ u := by
  unfold countDiff
  refine ratioDiff_num_bounds _ _ (by positivity) (by positivity) ?_
  intro hh
  exact h ⟨by exact_mod_cast hh.1, by exact_mod_cast hh.2⟩

theorem sizeDiff_num_bounds (sig1 sig2 : GroupSignature)
    (ha : 0 ≤ sig1.avgFontSize) (hb : 0 ≤ sig2.avgFontSize)
    (h : ¬(sig1.avgFontSize = 0 ∧ sig2.avgFontSize = 0)) :
    ∃ u : ℚ, sizeDiff sig1 sig2 = .num u ∧ 0 ≤ u := by
  unfold sizeDiff
  exact ratioDiff_num_bounds _ _ ha hb h

theorem heightDiff_num_bounds (sig1 sig2 : GroupSignature)
    (ha : 0 ≤ sig1.lineHeight) (hb : 0 ≤ sig2.lineHeight)
    (h : ¬(sig1.lineHeight = 0 ∧ sig2.lineHeight = 0)) :
    ∃ u : ℚ, heightDiff sig1 sig2 = .num u ∧ 0 ≤ u := by
  unfold heightDiff
  exact ratioDiff_num_bounds _ _ ha hb h

theorem lenRatio_num_bounds (sig1 sig2 : GroupSignature)
    (h : ¬(sig1.textLength = 0 ∧ sig2.textLength = 0)) :
    ∃ u : ℚ, lenRatio sig1 sig2 = .num u ∧ 0 ≤ u ∧ u ≤ 1 := by
  unfold lenRatio
  refine minMaxRatio_num_bounds _ _ (by positivity) (by positivity) ?_
  intro hh
  exact h ⟨by exact_mod_cast hh.1, by exact_mod_cast hh.2⟩

theorem textScorePart_num_bounds (powHalf : JsNum → JsNum)
    (sig1 sig2 : GroupSignature) (t1 t2 : String)
    (h1 : t1 ≠ "") (h2 : t2 ≠ "")
    (hl : ¬(sig1.textLength = 0 ∧ sig2.textLength = 0)) :
    ∃ x : ℚ, textScorePart powHalf sig1 sig2 (some t1) (some t2) = .num x ∧
      0 ≤ x ∧ x ≤ 3/20 := by
  unfold textScorePart
  rw [jsTruthy_some_of_ne _ h1, jsTruthy_some_of_ne _ h2]
  simp only [Bool.and_self, if_true, Option.getD_some]
  split_ifs with hw
  · refine ⟨jaccardQ (wordSet t1 2) (wordSet t2 2) * (3/20), rfl, ?_, ?_⟩
    · exact mul_nonneg (jaccardQ_nonneg _ _) (by norm_num)
    · exact mul_le_of_le_one_left (by norm_num) (jaccardQ_le_one _ _)
  · obtain ⟨u, hu, hun, hu1⟩ := lenRatio_num_bounds sig1 sig2 hl
    refine ⟨u * (3/20), ?_, ?_, ?_⟩
    · rw [hu, jmul_num]
    · exact mul_nonneg hun (by norm_num)
    · exact mul_le_of_le_one_left (by norm_num) hu1

theorem textScorePart_comm (powHalf : JsNum → JsNum)
    (sig1 sig2 : GroupSignature) (t1 t2 : Option String) :
    textScorePart powHalf sig1 sig2 t1 t2 = textScorePart powHalf sig2 sig1 t2 t1 := by
  unfold textScorePart
  rw [Bool.and_comm]
  by_cases hc : (jsTruthy t2 && jsTruthy t1) = true
  · rw [if_pos hc, if_pos hc]
    by_cases hw : 0 < (wordSet (t1.getD "") 2).card ∧ 0 < (wordSet (t2.getD "") 2).card
    · rw [if_pos hw, if_pos ⟨hw.2, hw.1⟩, jaccardQ_comm]
    · rw [if_neg hw, if_neg (fun hh => hw ⟨hh.2, hh.1⟩), lenRatio_comm]
  · rw [if_neg hc, if_neg hc, lenRatio_comm]

theorem mainScore_comm (powHalf : JsNum → JsNum) (sig1 sig2 : GroupSignature)
    (t1 t2 : Option String) :
    mainScore powHalf sig1 sig2 t1 t2 = mainScore powHalf sig2 sig1 t2 t1 := by
  unfold mainScore
  rw [horizontalSimilarity_comm, countDiff_comm, sizeDiff_comm,
    textScorePart_comm, heightDiff_comm, fontMatch_comm, boldMatch_comm]

theorem subScorePart_zero (k w : ℚ) :
    jmul (jsub (.num 1) (jmin (jmul (.num 0) (.num k)) (.num 1))) (.num w) = .num w := by
  rw [jmul_num, zero_mul, jmin_num, min_eq_left (by norm_num : (0:ℚ) ≤ 1),
    jsub_num, sub_zero, jmul_num, one_mul]

theorem countDiff_self (sig : GroupSignature) (h : sig.elementCount ≠ 0) :
    countDiff sig sig = .num 0 := by
  unfold countDiff
  rw [jsub_num, sub_self, jabs_num, abs_zero, jmax_num, max_self,
    jdiv_num _ _ (by exact_mod_cast h), zero_div]

theorem sizeDiff_self (sig : GroupSignature) (h : sig.avgFontSize ≠ 0) :
    sizeDiff sig sig = .num 0 := by
  unfold sizeDiff
  rw [jsub_num, sub_self, jabs_num, abs_zero, jmax_num, max_self,
    jdiv_num _ _ h, zero_div]

theorem heightDiff_self (sig : GroupSignature) (h : sig.lineHeight ≠ 0) :
    heightDiff sig sig = .num 0 := by
  unfold heightDiff
  rw [jsub_num, sub_self, jabs_num, abs_zero, jmax_num, max_self,
    jdiv_num _ _ h, zero_div]

theorem lenRatio_self (sig : GroupSignature) (h : sig.textLength ≠ 0) :
    lenRatio sig sig = .num 1 := by
  unfold lenRatio
  rw [jmin_num, min_self, jmax_num, max_self,
    jdiv_num _ _ (by exact_mod_cast h), div_self (by exact_mod_cast h)]

theorem fontMatch_self (f : String) : fontMatch f f = 1 := by
  unfold fontMatch
  rw [if_pos rfl]

theorem boldMatch_self (b : Bool) : boldMatch b b = 1 := by
  unfold boldMatch
  rw [if_pos rfl]

theorem textScorePart_self (powHalf : JsNum → JsNum) (sig : GroupSignature)
    (t : String) (ht : t ≠ "") (htl : sig.textLength ≠ 0) :
    textScorePart powHalf sig sig (some t) (some t) = .num (3/20) := by
  unfold textScorePart
  rw [jsTruthy_some_of_ne _ ht]
  simp only [Bool.and_self, if_true, Option.getD_some]
  split_ifs with hw
  · rw [jaccardQ_self _ hw.1, one_mul]
  · rw [lenRatio_self _ htl, jmul_num, one_mul]

theorem mainScore_self (powHalf : JsNum → JsNum) (sig : GroupSignature)
    (t : String) (ht : t ≠ "") (hc : sig.elementCount ≠ 0)
    (hs : sig.avgFontSize ≠ 0) (hh : sig.lineHeight ≠ 0)
    (htl : sig.textLength ≠ 0) :
    mainScore powHalf sig sig (some t) (some t) = .num 1 := by
  simp only [mainScore]
  rw [horizontalSimilarity_self, countDiff_self _ hc, subScorePart_zero,
    sizeDiff_self _ hs, subScorePart_zero, textScorePart_self _ _ _ ht htl,
    heightDiff_self _ hh, subScorePart_zero, fontMatch_self, boldMatch_self,
    jadd_num, jadd_num, jadd_num, jadd_num, jadd_num, jadd_num,
    if_pos (by norm_num : (0:ℚ) < 1/4 + 1/10 + 3/20 + 3/20 + 1/10 + 1/5 + 3/20),
    jdiv_num _ _ (by norm_num)]
  norm_num

theorem mainScore_num_bounds (powHalf : JsNum → JsNum)
    (sig1 sig2 : GroupSignature) (t1 t2 : String)
    (h1 : t1 ≠ "") (h2 : t2 ≠ "")
    (hcnt : ¬(sig1.elementCount = 0 ∧ sig2.elementCount = 0))
    (hsz1 : 0 ≤ sig1.avgFontSize) (hsz2 : 0 ≤ sig2.avgFontSize)
    (hsz : ¬(sig1.avgFontSize = 0 ∧ sig2.avgFontSize = 0))
    (hlh1 : 0 ≤ sig1.lineHeight) (hlh2 : 0 ≤ sig2.lineHeight)
    (hlh : ¬(sig1.lineHeight = 0 ∧ sig2.lineHeight = 0))
    (htl : ¬(sig1.textLength = 0 ∧ sig2.textLength = 0)) :
    ∃ q : ℚ, mainScore powHalf sig1 sig2 (some t1) (some t2) = .num q ∧
      0 ≤ q ∧ q ≤ 1 := by
  obtain ⟨u1, e1, hu1⟩ := countDiff_num_bounds sig1 sig2 hcnt
  obtain ⟨x2, e2, hx2, hx2w⟩ :=
    subScorePart_bounds _ u1 2 (1/10) e1 hu1 (by norm_num) (by norm_num)
  obtain ⟨u3, e3, hu3⟩ := sizeDiff_num_bounds sig1 sig2 hsz1 hsz2 hsz
  obtain ⟨x3, e3w, hx3, hx3w⟩ :=
    subScorePart_bounds _ u3 3 (3/20) e3 hu3 (by norm_num) (by norm_num)
  obtain ⟨x4, e4, hx4, hx4w⟩ := textScorePart_num_bounds powHalf sig1 sig2 t1 t2 h1 h2 htl
  obtain ⟨u5, e5, hu5⟩ := heightDiff_num_bounds sig1 sig2 hlh1 hlh2 hlh
  obtain ⟨x5, e5w, hx5, hx5w⟩ :=
    subScorePart_bounds _ u5 2 (1/10) e5 hu5 (by norm_num) (by norm_num)
  have hh0 := horizontalSimilarity_nonneg sig1 sig2
  have hh1 := horizontalSimilarity_le_one sig1 sig2
  have hf0 := fontMatch_nonneg sig1.fontFamily sig2.fontFamily
  have hf1 := fontMatch_le_one sig1.fontFamily sig2.fontFamily
  have hb0 := boldMatch_nonneg sig1.isBold sig2.isBold
  have hb1 := boldMatch_le_one sig1.isBold sig2.isBold
  refine ⟨(horizontalSimilarity sig1 sig2 * (1/4) + x2 + x3 + x4 + x5 +
      fontMatch sig1.fontFamily sig2.fontFamily * (1/5) +
      boldMatch sig1.isBold sig2.isBold * (3/20)) /
      (1/4 + 1/10 + 3/20 + 3/20 + 1/10 + 1/5 + 3/20), ?_, ?_, ?_⟩
  · simp only [mainScore]
    rw [e2, e3w, e4, e5w, jadd_num, jadd_num, jadd_num, jadd_num, jadd_num, jadd_num,
      if_pos (by norm_num : (0:ℚ) < 1/4 + 1/10 + 3/20 + 3/20 + 1/10 + 1/5 + 3/20),
      jdiv_num _ _ (by norm_num)]
  · apply div_nonneg _ (by norm_num)
    have hm1 : 0 ≤ horizontalSimilarity sig1 sig2 * (1/4) := mul_nonneg hh0 (by norm_num)
    have hm2 : 0 ≤ fontMatch sig1.fontFamily sig2.fontFamily * (1/5) := mul_nonneg hf0 (by norm_num)
    have hm3 : 0 ≤ boldMatch sig1.isBold sig2.isBold * (3/20) := mul_nonneg hb0 (by norm_num)
    linarith
  · rw [div_le_one (by norm_num)]
    have hm1 : horizontalSimilarity sig1 sig2 * (1/4) ≤ 1/4 := by
      calc horizontalSimilarity sig1 sig2 * (1/4) ≤ 1 * (1/4) :=
        mul_le_mul_of_nonneg_right hh1 (by norm_num)
      _ = 1/4 := one_mul _
    have hm2 : fontMatch sig1.fontFamily sig2.fontFamily * (1/5) ≤ 1/5 := by
      calc fontMatch sig1.fontFamily sig2.fontFamily * (1/5) ≤ 1 * (1/5) :=
        mul_le_mul_of_nonneg_right hf1 (by norm_num)
      _ = 1/5 := one_mul _
    have hm3 : boldMatch sig1.isBold sig2.isBold * (3/20) ≤ 3/20 := by
      calc boldMatch sig1.isBold sig2.isBold * (3/20) ≤ 1 * (3/20) :=
        mul_le_mul_of_nonneg_right hb1 (by norm_num)
      _ = 3/20 := one_mul _
    linarith

/-- C1: whenever the horizontal-position sub-score is below 0.8 and the
Jaccard similarity of the two texts' sets of lowercase words longer than
3 characters is below 0.15 (both sets non-empty), compareSignatures
returns exactly 0, regardless of every other sub-score. -/
theorem column_gate_forces_zero (powHalf : JsNum → JsNum)
    (sig1 sig2 : GroupSignature) (t1 t2 : String)
    (hh : horizontalSimilarity sig1 sig2 < 4/5)
    (h1 : 0 < (wordSet t1 3).card) (h2 : 0 < (wordSet t2 3).card)
    (hj : jaccardQ (wordSet t1 3) (wordSet t2 3) < 3/20) :
    compareSignatures powHalf sig1 sig2 (some t1) (some t2) = .num 0 := by
  have ht1 : t1 ≠ "" := by rintro rfl; rw [wordSet_empty] at h1; simp at h1
  have ht2 : t2 ≠ "" := by rintro rfl; rw [wordSet_empty] at h2; simp at h2
  simp only [compareSignatures]
  rw [if_pos hh, jsTruthy_some_of_ne _ ht1, jsTruthy_some_of_ne _ ht2]
  simp only [Bool.and_self, Option.getD_some]
  rw [if_pos trivial, if_pos ⟨h1, h2⟩, if_pos hj]

/-- Witness for C1: a candidate 350px to the right (left 400 vs 50) with
disjoint word sets scores exactly 0 although font family, size, bold
flag, element count, text length and line height all match. -/
theorem column_gate_forces_zero_witness :
    horizontalSimilarity ⟨3, "Arial", 12, false, 17, 14, 50⟩
        ⟨3, "Arial", 12, false, 17, 14, 400⟩ < 4/5 ∧
    0 < (wordSet "alpha beta gamma" 3).card ∧
    0 < (wordSet "delta epsilon zeta" 3).card ∧
    jaccardQ (wordSet "alpha beta gamma" 3) (wordSet "delta epsilon zeta" 3) < 3/20 ∧
    compareSignatures (fun x => x) ⟨3, "Arial", 12, false, 17, 14, 50⟩
      ⟨3, "Arial", 12, false, 17, 14, 400⟩
      (some "alpha beta gamma") (some "delta epsilon zeta") = .num 0 := by
  have hh : horizontalSimilarity ⟨3, "Arial", 12, false, 17, 14, 50⟩
      ⟨3, "Arial", 12, false, 17, 14, 400⟩ < 4/5 :=
    of_decide_eq_true (by with_unfolding_all rfl)
  have h1 : 0 < (wordSet "alpha beta gamma" 3).card :=
    of_decide_eq_true (by with_unfolding_all rfl)
  have h2 : 0 < (wordSet "delta epsilon zeta" 3).card :=
    of_decide_eq_true (by with_unfolding_all rfl)
  have hj : jaccardQ (wordSet "alpha beta gamma" 3) (wordSet "delta epsilon zeta" 3) < 3/20 :=
    of_decide_eq_true (by with_unfolding_all rfl)
  exact ⟨hh, h1, h2, hj, column_gate_forces_zero _ _ _ _ _ hh h1 h2 hj⟩

/-- C2 counterexample: on the fully degenerate signature (elementCount,
avgFontSize, textLength and lineHeight all 0) the scorer divides 0 by 0
and returns NaN, not the claimed 0. -/
theorem degenerate_signature_nan_cex :
    compareSignatures (fun x => x) ⟨0, "", 0, false, 0, 0, 0⟩
      ⟨0, "", 0, false, 0, 0, 0⟩ (some "ab") (some "ab") = JsNum.nan ∧
    JsNum.nan ≠ JsNum.num 0 :=
  ⟨by with_unfolding_all rfl, by decide⟩

/-- C2 amended: the ratio denominators are not guarded, so fully
degenerate signatures score NaN; but whenever no ratio has both operands
zero (and the two texts are non-empty), every division is by a positive
number and the score is a well-defined rational in the interval from 0
to 1. -/
theorem scorer_well_defined_when_not_degenerate (powHalf : JsNum → JsNum)
    (sig1 sig2 : GroupSignature) (t1 t2 : String)
    (h1 : t1 ≠ "") (h2 : t2 ≠ "")
    (hcnt : ¬(sig1.elementCount = 0 ∧ sig2.elementCount = 0))
    (hsz1 : 0 ≤ sig1.avgFontSize) (hsz2 : 0 ≤ sig2.avgFontSize)
    (hsz : ¬(sig1.avgFontSize = 0 ∧ sig2.avgFontSize = 0))
    (hlh1 : 0 ≤ sig1.lineHeight) (hlh2 : 0 ≤ sig2.lineHeight)
    (hlh : ¬(sig1.lineHeight = 0 ∧ sig2.lineHeight = 0))
    (htl : ¬(sig1.textLength = 0 ∧ sig2.textLength = 0)) :
    ∃ q : ℚ, compareSignatures powHalf sig1 sig2 (some t1) (some t2) = .num q ∧
      0 ≤ q ∧ q ≤ 1 := by
  obtain ⟨q, hq, hq0, hq1⟩ := mainScore_num_bounds powHalf sig1 sig2 t1 t2 h1 h2
    hcnt hsz1 hsz2 hsz hlh1 hlh2 hlh htl
  simp only [compareSignatures]
  split_ifs with g1 g2 g3 g4
  · exact ⟨0, rfl, le_refl 0, by norm_num⟩
  · exact ⟨q, hq, hq0, hq1⟩
  · exact ⟨q, hq, hq0, hq1⟩
  · exact ⟨q, hq, hq0, hq1⟩
  · exact ⟨q, hq, hq0, hq1⟩

/-- Witness for C2 (amended): a concrete non-degenerate pair scores a
rational in the unit interval. -/
theorem scorer_well_defined_witness :
    ∃ q : ℚ, compareSignatures (fun x => x) ⟨2, "Arial", 12, false, 10, 14, 50⟩
      ⟨3, "Arial", 10, true, 8, 12, 60⟩
      (some "hello world") (some "brave realm") = .num q ∧ 0 ≤ q ∧ q ≤ 1 :=
  scorer_well_defined_when_not_degenerate (fun x => x)
    ⟨2, "Arial", 12, false, 10, 14, 50⟩ ⟨3, "Arial", 10, true, 8, 12, 60⟩
    "hello world" "brave realm" (by decide) (by decide) (by decide)
    (by norm_num) (by norm_num) (by norm_num) (by norm_num) (by norm_num)
    (by norm_num) (by decide)

/-- C3 counterexample: a signature meeting all the stated non-degeneracy
conditions (elementCount, avgFontSize, lineHeight positive, non-empty
text) but with textLength 0 makes the length-ratio fallback divide 0 by
0, so the self-comparison is NaN, not 1.0. -/
theorem self_score_one_cex :
    0 < (⟨1, "f", 12, false, 0, 10, 50⟩ : GroupSignature).elementCount ∧
    0 < (⟨1, "f", 12, false, 0, 10, 50⟩ : GroupSignature).avgFontSize ∧
    0 < (⟨1, "f", 12, false, 0, 10, 50⟩ : GroupSignature).lineHeight ∧
    ("ab" : String) ≠ "" ∧
    compareSignatures (fun x => x) ⟨1, "f", 12, false, 0, 10, 50⟩
      ⟨1, "f", 12, false, 0, 10, 50⟩ (some "ab") (some "ab") ≠ .num 1 := by
  refine ⟨by decide, by norm_num, by norm_num, by decide, ?_⟩
  have h : compareSignatures (fun x => x) ⟨1, "f", 12, false, 0, 10, 50⟩
      ⟨1, "f", 12, false, 0, 10, 50⟩ (some "ab") (some "ab") = JsNum.nan := by
    with_unfolding_all rfl
  rw [h]
  decide

/-- C3 amended: with the additional condition textLength positive (true
of every signature built from fragments with non-empty text), comparing
a signature-and-text pair against an identical copy of itself scores
exactly 1. -/
theorem self_comparison_scores_one (powHalf : JsNum → JsNum)
    (sig : GroupSignature) (t : String)
    (hc : 0 < sig.elementCount) (hs : 0 < sig.avgFontSize)
    (hh : 0 < sig.lineHeight) (ht : t ≠ "") (htl : 0 < sig.textLength) :
    compareSignatures powHalf sig sig (some t) (some t) = .num 1 := by
  simp only [compareSignatures]
  rw [if_neg (by rw [horizontalSimilarity_self]; norm_num)]
  exact mainScore_self powHalf sig t ht (Nat.pos_iff_ne_zero.mp hc) hs.ne'
    hh.ne' (Nat.pos_iff_ne_zero.mp htl)

/-- Witness for C3 (amended): a concrete non-degenerate group signature
compared with itself scores exactly 1. -/
theorem self_comparison_scores_one_witness :
    compareSignatures (fun x => x) ⟨1, "Arial", 12, false, 5, 10, 50⟩
      ⟨1, "Arial", 12, false, 5, 10, 50⟩ (some "hello") (some "hello") = .num 1 :=
  self_comparison_scores_one (fun x => x) ⟨1, "Arial", 12, false, 5, 10, 50⟩
    "hello" (by decide) (by norm_num) (by norm_num) (by decide) (by decide)

/-- C4: the scorer is symmetric: swapping the reference and candidate
signatures together with their texts yields the same value, on the main
weighted-sum path, the column-gate path, and the empty-word-set
(length-ratio) fallback path alike. -/
theorem compareSignatures_symm (powHalf : JsNum → JsNum)
    (sig1 sig2 : GroupSignature) (t1 t2 : Option String) :
    compareSignatures powHalf sig1 sig2 t1 t2 =
      compareSignatures powHalf sig2 sig1 t2 t1 := by
  simp only [compareSignatures]
  rw [mainScore_comm, horizontalSimilarity_comm]
  by_cases g1 : horizontalSimilarity sig2 sig1 < 4/5
  · rw [if_pos g1, if_pos g1]
    cases e1 : jsTruthy t1 <;> cases e2 : jsTruthy t2
    · rw [if_neg (by simp), if_neg (by simp)]
    · rw [if_neg (by simp), if_neg (by simp)]
    · rw [if_neg (by simp), if_neg (by simp)]
    · simp only [Bool.and_self]
      rw [if_pos trivial, if_pos trivial]
      by_cases g3 : 0 < (wordSet (t1.getD "") 3).card ∧ 0 < (wordSet (t2.getD "") 3).card
      · have g3s : 0 < (wordSet (t2.getD "") 3).card ∧ 0 < (wordSet (t1.getD "") 3).card :=
          ⟨g3.2, g3.1⟩
        rw [if_pos g3, if_pos g3s, jaccardQ_comm]
      · have g3s : ¬(0 < (wordSet (t2.getD "") 3).card ∧ 0 < (wordSet (t1.getD "") 3).card) :=
          fun hhh => g3 ⟨hhh.2, hhh.1⟩
        rw [if_neg g3, if_neg g3s]
  · rw [if_neg g1, if_neg g1]

/-! Lemmas about the grouping scan. -/

theorem isEmpty_false_of_ne_nil {α : Type} {l : List α} (h : l ≠ []) :
    l.isEmpty = false := by
  cases l with
  | nil => exact absurd rfl h
  | cons x xs => rfl

theorem emitGroup_of_ne_nil (cur : List TextElementNode) (h : cur ≠ []) :
    emitGroup cur = [createElementGroup cur] := by
  cases cur with
  | nil => exact absurd rfl h
  | cons c cs => simp [emitGroup]

theorem groupLoop_elements_flatten (mlg mcg : ℚ) (rest : List TextElementNode) :
    ∀ cur : List TextElementNode, cur ≠ [] →
      ((groupLoop mlg mcg rest cur).map (fun g => g.elements)).flatten = cur ++ rest := by
  induction rest with
  | nil =>
    intro cur hcur
    simp only [groupLoop, emitGroup_of_ne_nil cur hcur]
    simp [createElementGroup]
  | cons e rest ih =>
    intro cur hcur
    simp only [groupLoop]
    split_ifs with hcond
    · rw [ih (cur ++ [e]) (by simp)]
      simp
    · rw [emitGroup_of_ne_nil cur hcur]
      simp only [List.singleton_append, List.map_cons, List.flatten_cons]
      rw [ih [e] (by simp)]
      simp [createElementGroup]

theorem groupLoop_elements_ne_nil (mlg mcg : ℚ) (rest : List TextElementNode) :
    ∀ cur : List TextElementNode, cur ≠ [] →
      ∀ g ∈ groupLoop mlg mcg rest cur, g.elements ≠ [] := by
  induction rest with
  | nil =>
    intro cur hcur g hg
    simp only [groupLoop, emitGroup_of_ne_nil cur hcur, List.mem_singleton] at hg
    subst hg
    exact hcur
  | cons e rest ih =>
    intro cur hcur g hg
    simp only [groupLoop] at hg
    split_ifs at hg with hcond
    · exact ih (cur ++ [e]) (by simp) g hg
    · rw [emitGroup_of_ne_nil cur hcur] at hg
      simp only [List.singleton_append, List.mem_cons] at hg
      rcases hg with hg | hg
      · subst hg; exact hcur
      · exact ih [e] (by simp) g hg

/-- C5 amended: the groups' fragment lists, concatenated in output
order, are exactly the stably top-then-left sorted permutation of the
input: no fragment is duplicated or dropped, every group is non-empty,
and the empty input yields the empty output; but the order preserved
inside the groups is the sorted scan order, not the original input
order. -/
theorem grouping_partitions_sorted_input (elements : List TextElementNode)
    (mlg mcg : ℚ) :
    ((groupTextElementsIntoSections elements mlg mcg).map
        (fun g => g.elements)).flatten = jsSortNodes elements ∧
    ((groupTextElementsIntoSections elements mlg mcg).map
        (fun g => g.elements)).flatten.Perm elements ∧
    (∀ g ∈ groupTextElementsIntoSections elements mlg mcg, g.elements ≠ []) ∧
    (elements = [] → groupTextElementsIntoSections elements mlg mcg = []) := by
  have hflat : ((groupTextElementsIntoSections elements mlg mcg).map
      (fun g => g.elements)).flatten = jsSortNodes elements := by
    unfold groupTextElementsIntoSections
    by_cases he : elements.isEmpty
    · rw [if_pos he]
      have : elements = [] := by
        cases elements with
        | nil => rfl
        | cons x xs => exact absurd he (by simp)
      subst this
      simp [jsSortNodes]
    · rw [if_neg he]
      cases hs : jsSortNodes elements with
      | nil => simp
      | cons e0 rest =>
        rw [groupLoop_elements_flatten mlg mcg rest [e0] (by simp)]
        rfl
  refine ⟨hflat, ?_, ?_, ?_⟩
  · rw [hflat]
    exact List.mergeSort_perm elements _
  · intro g hg
    unfold groupTextElementsIntoSections at hg
    by_cases he : elements.isEmpty
    · rw [if_pos he] at hg
      exact absurd hg (List.not_mem_nil g)
    · rw [if_neg he] at hg
      cases hs : jsSortNodes elements with
      | nil => rw [hs] at hg; exact absurd hg (List.not_mem_nil g)
      | cons e0 rest =>
        rw [hs] at hg
        exact groupLoop_elements_ne_nil mlg mcg rest [e0] (by simp) g hg
  · intro he
    subst he
    rfl

/-- Witness for C5 (amended), at a concrete one-fragment input. -/
theorem grouping_partitions_sorted_input_witness :
    ((groupTextElementsIntoSections [⟨"A", ⟨0, 0, 10, 10⟩, 1, "f", 12, false⟩] 30 150).map
        (fun g => g.elements)).flatten.Perm
      [⟨"A", ⟨0, 0, 10, 10⟩, 1, "f", 12, false⟩] :=
  (grouping_partitions_sorted_input [⟨"A", ⟨0, 0, 10, 10⟩, 1, "f", 12, false⟩] 30 150).2.1

/-- C5 counterexample: the input [B, A] (two fragments on the same row,
B to the right of A) produces the single group [A, B], whose fragment
order is the sorted order and not an order-preserving subsequence of the
original input sequence. -/
theorem grouping_not_input_order_cex :
    ((groupTextElementsIntoSections
        [⟨"B", ⟨50, 0, 10, 10⟩, 1, "f", 12, false⟩,
         ⟨"A", ⟨0, 0, 10, 10⟩, 1, "f", 12, false⟩] 30 150).map
      (fun g => g.elements)) =
      [[⟨"A", ⟨0, 0, 10, 10⟩, 1, "f", 12, false⟩,
        ⟨"B", ⟨50, 0, 10, 10⟩, 1, "f", 12, false⟩]] ∧
    ¬ List.Sublist
        [(⟨"A", ⟨0, 0, 10, 10⟩, 1, "f", 12, false⟩ : TextElementNode),
         ⟨"B", ⟨50, 0, 10, 10⟩, 1, "f", 12, false⟩]
        [⟨"B", ⟨50, 0, 10, 10⟩, 1, "f", 12, false⟩,
         ⟨"A", ⟨0, 0, 10, 10⟩, 1, "f", 12, false⟩] :=
  ⟨by with_unfolding_all rfl, by decide⟩

/-! Lemmas for the text-length invariant of signatures. -/

theorem jsJoinSpace_length (l : List String) (h : l ≠ []) :
    (jsJoinSpace l).length = (l.map String.length).sum + (l.length - 1) := by
  induction l with
  | nil => exact absurd rfl h
  | cons w t ih =>
    cases t with
    | nil => simp [jsJoinSpace]
    | cons x xs =>
      have hrec := ih (by simp)
      simp only [jsJoinSpace, String.length_append, hrec]
      simp only [List.map_cons, List.sum_cons, List.length_cons]
      have hx : (" " : String).length = 1 := rfl
      omega

theorem createSignature_textLength (es : List TextElementNode) :
    (createSignature es).textLength = (es.map (fun e => e.text.length)).sum := by
  cases es with
  | nil => rfl
  | cons e0 t => rfl

/-- C9: a group signature's textLength is the sum of the member
fragments' text lengths, and never counts the single-space separators of
the joined text: it equals the joined text's length minus
(fragment count - 1). -/
theorem signature_textLength_sum (es : List TextElementNode) (hne : es ≠ []) :
    (createElementGroup es).signature.textLength =
        (es.map (fun e => e.text.length)).sum ∧
    (createElementGroup es).signature.textLength =
        (createElementGroup es).text.length - (es.length - 1) := by
  have h1 : (createElementGroup es).signature.textLength =
      (es.map (fun e => e.text.length)).sum := createSignature_textLength es
  refine ⟨h1, ?_⟩
  have h2 : (createElementGroup es).text.length =
      ((es.map (fun e => e.text)).map String.length).sum + (es.length - 1) := by
    have := jsJoinSpace_length (es.map (fun e => e.text)) (by
      intro hc
      exact hne (List.map_eq_nil_iff.mp hc))
    simpa using this
  rw [h1, h2]
  have : ((es.map (fun e => e.text)).map String.length).sum =
      (es.map (fun e => e.text.length)).sum := by
    rw [List.map_map]
    rfl
  rw [this]
  omega

/-- Witness for C9: a two-fragment group has textLength 5 = sum of the
fragment lengths = joined length 6 minus one separator. -/
theorem signature_textLength_sum_witness :
    (createElementGroup [⟨"ab", ⟨0, 0, 1, 1⟩, 1, "f", 10, false⟩,
        ⟨"cde", ⟨1, 0, 1, 1⟩, 1, "f", 10, false⟩]).signature.textLength =
      ([⟨"ab", ⟨0, 0, 1, 1⟩, 1, "f", 10, false⟩,
        (⟨"cde", ⟨1, 0, 1, 1⟩, 1, "f", 10, false⟩ : TextElementNode)].map
          (fun e => e.text.length)).sum ∧
    (createElementGroup [⟨"ab", ⟨0, 0, 1, 1⟩, 1, "f", 10, false⟩,
        ⟨"cde", ⟨1, 0, 1, 1⟩, 1, "f", 10, false⟩]).signature.textLength =
      (createElementGroup [⟨"ab", ⟨0, 0, 1, 1⟩, 1, "f", 10, false⟩,
        ⟨"cde", ⟨1, 0, 1, 1⟩, 1, "f", 10, false⟩]).text.length -
        ([⟨"ab", ⟨0, 0, 1, 1⟩, 1, "f", 10, false⟩,
          (⟨"cde", ⟨1, 0, 1, 1⟩, 1, "f", 10, false⟩ : TextElementNode)].length - 1) :=
  signature_textLength_sum _ (List.cons_ne_nil _ _)

/-! The orchestrator claims. -/

/-- C7: for any document of totalPages at least 1, any selected page in
range and any maxPages at least 1, the computed page window is a
contiguous range inside the document that contains the selected page and
covers exactly min(maxPages, totalPages) pages; when the centered window
already fits it is used unchanged. -/
theorem page_window_correct (totalPages currentPage maxPages : ℤ)
    (_hT : 1 ≤ totalPages) (hc1 : 1 ≤ currentPage)
    (hc2 : currentPage ≤ totalPages) (hm : 1 ≤ maxPages) :
    1 ≤ (pageWindow totalPages currentPage maxPages).1 ∧
    (pageWindow totalPages currentPage maxPages).1 ≤ currentPage ∧
    currentPage ≤ (pageWindow totalPages currentPage maxPages).2 ∧
    (pageWindow totalPages currentPage maxPages).2 ≤ totalPages ∧
    (pageWindow totalPages currentPage maxPages).2 -
      (pageWindow totalPages currentPage maxPages).1 + 1 = min maxPages totalPages ∧
    (1 ≤ currentPage - maxPages / 2 ∧
        currentPage - maxPages / 2 + maxPages - 1 ≤ totalPages →
      (pageWindow totalPages currentPage maxPages).1 = currentPage - maxPages / 2 ∧
      (pageWindow totalPages currentPage maxPages).2 =
        currentPage - maxPages / 2 + maxPages - 1) := by
  simp only [pageWindow]
  split_ifs with h1 h2 h3 <;> dsimp only <;> omega

/-- Witness for C7: a 10-page document, selection on page 9, window
width 5: the window is [6, 10], still 5 pages, containing page 9. -/
theorem page_window_correct_witness :
    1 ≤ (pageWindow 10 9 5).1 ∧
    (pageWindow 10 9 5).1 ≤ 9 ∧
    (9:ℤ) ≤ (pageWindow 10 9 5).2 ∧
    (pageWindow 10 9 5).2 ≤ 10 ∧
    (pageWindow 10 9 5).2 - (pageWindow 10 9 5).1 + 1 = min 5 10 ∧
    ((1:ℤ) ≤ 9 - 5 / 2 ∧ (9:ℤ) - 5 / 2 + 5 - 1 ≤ 10 →
      (pageWindow 10 9 5).1 = 9 - 5 / 2 ∧ (pageWindow 10 9 5).2 = 9 - 5 / 2 + 5 - 1) :=
  page_window_correct 10 9 5 (by decide) (by decide) (by decide) (by decide)

/-- C6 counterexample: a selection of raw length 10 whose trimmed length
is 1 is not rejected by the DOM orchestrator, which checks the raw
(untrimmed) length, and extraction is invoked. -/
theorem short_trimmed_text_not_rejected_cex :
    (jsTrim "a         ").length < 10 ∧
    findSimilarSectionsStart "a         " 5 3 50 ≠ OrchestratorStart.rejected := by
  constructor
  · decide
  · decide

/-- C6 amended: the DOM orchestrator findSimilarSections rejects
immediately, without invoking the extraction collaborator, exactly when
the raw (untrimmed) length of selectedText is below 10; in particular
the 2-character selection "hi" is rejected. -/
theorem short_text_rejected (s : String) (T c m : ℤ) (h : s.length < 10) :
    findSimilarSectionsStart s T c m = .rejected := by
  unfold findSimilarSectionsStart
  have hc : (s.isEmpty || decide (s.length < 10)) = true := by
    simp [h]
  rw [if_pos hc]

/-- Witness for C6 (amended): the selection "hi" is rejected. -/
theorem short_text_rejected_witness :
    ("hi" : String).length < 10 ∧
    findSimilarSectionsStart "hi" 5 3 50 = .rejected :=
  ⟨by decide, short_text_rejected "hi" 5 3 50 (by decide)⟩

/-! Length lemmas for the normalization pipeline. -/

theorem collapseWsAux_length_le (l : List Char) :
    ∀ b : Bool, (collapseWsAux b l).length ≤ l.length := by
  induction l with
  | nil => intro b; simp [collapseWsAux]
  | cons c rest ih =>
    intro b
    simp only [collapseWsAux]
    split_ifs with h1 h2
    · exact le_trans (ih true) (by simp)
    · simpa using ih true
    · simpa using ih false

theorem dropWhileWs_length_le (l : List Char) :
    (l.dropWhile isWsChar).length ≤ l.length :=
  (List.dropWhile_sublist isWsChar).length_le

theorem trimWsList_length_le (l : List Char) :
    (trimWsList l).length ≤ l.length := by
  unfold trimWsList
  rw [List.length_reverse]
  refine le_trans (dropWhileWs_length_le _) ?_
  rw [List.length_reverse]
  exact dropWhileWs_length_le l

theorem jsNormalize_length_le_trim (s : String) :
    (jsNormalize s).length ≤ (jsTrim (jsToLower s)).length :=
  collapseWsAux_length_le _ false

theorem jsTrim_length_le (s : String) : (jsTrim s).length ≤ s.length :=
  trimWsList_length_le s.data

theorem jsToLower_length (s : String) : (jsToLower s).length = s.length := by
  rw [show (jsToLower s).length = (s.data.map Char.toLower).length from rfl]
  rw [List.length_map]
  rfl

/-- C10: findSimilarText has its own hidden minimum-length gate: for
every corpus and threshold it returns the empty list as soon as the
normalized search text is shorter than 15 characters; consequently a
selection whose (lowercased) trimmed length lies between 10 and 14
passes the DOM orchestrator's own raw-length-10 check yet can never
produce any match through this backend. -/
theorem ngram_min_length_gate :
    (∀ (s c : String) (t : ℚ), (jsNormalize s).length < 15 →
      findSimilarText s c t = []) ∧
    (∀ (s c : String) (t : ℚ) (T cp m : ℤ),
      10 ≤ (jsTrim (jsToLower s)).length → (jsTrim (jsToLower s)).length ≤ 14 →
      findSimilarSectionsStart s T cp m ≠ OrchestratorStart.rejected ∧
        findSimilarText s c t = []) := by
  have gate : ∀ (s c : String) (t : ℚ), (jsNormalize s).length < 15 →
      findSimilarText s c t = [] := by
    intro s c t h
    unfold findSimilarText
    rw [if_pos h]
  refine ⟨gate, ?_⟩
  intro s c t T cp m h10 h14
  have hlen : 10 ≤ s.length := by
    have h1 := jsTrim_length_le (jsToLower s)
    have h2 := jsToLower_length s
    omega
  constructor
  · unfold findSimilarSectionsStart
    have hne : s ≠ "" := by
      intro hc
      subst hc
      simp at hlen
    have he : s.isEmpty = false :=
      Bool.eq_false_iff.mpr (fun hh => hne ((String.isEmpty_iff s).mp hh))
    have hc : (s.isEmpty || decide (s.length < 10)) = false := by
      simp [he]
      omega
    rw [if_neg (by simp [hc])]
    intro hcon
    exact OrchestratorStart.noConfusion hcon
  · refine gate s c t ?_
    have := jsNormalize_length_le_trim s
    omega

/-- Witness for C10: the 12-character selection "hello worlds" passes
the DOM orchestrator's check but findSimilarText returns nothing, and
the short text "ab" is rejected by the n-gram gate outright. -/
theorem ngram_min_length_gate_witness :
    findSimilarText "ab" "the corpus" (4/5) = [] ∧
    (findSimilarSectionsStart "hello worlds" 5 3 50 ≠ OrchestratorStart.rejected ∧
      findSimilarText "hello worlds" "hello worlds and more" (4/5) = []) :=
  ⟨ngram_min_length_gate.1 "ab" "the corpus" (4/5)
      (of_decide_eq_true (by with_unfolding_all rfl)),
    ngram_min_length_gate.2 "hello worlds" "hello worlds and more" (4/5) 5 3 50
      (of_decide_eq_true (by with_unfolding_all rfl))
      (of_decide_eq_true (by with_unfolding_all rfl))⟩

/-- C8 counterexample: against a corpus where the 4-word phrase occurs
twice in immediate succession (word positions 0-4 and 4-8, within the
5-word dedup tolerance), the whole result is the single window of the
first occurrence, so the second occurrence has no returned match of its
own, contradicting the claim for that occurrence. -/
theorem ngram_duplicate_phrase_cex :
    findSimilarText "the quick brown fox"
        "the quick brown fox the quick brown fox" (4/5) =
      [⟨"the quick brown fox", 1, 0, 4⟩] ∧
    ¬ ∃ m ∈ findSimilarText "the quick brown fox"
        "the quick brown fox the quick brown fox" (4/5),
        m.startIndex = 4 ∧ m.endIndex = 8 := by
  have h : findSimilarText "the quick brown fox"
      "the quick brown fox the quick brown fox" (4/5) =
      [⟨"the quick brown fox", 1, 0, 4⟩] := by
    with_unfolding_all rfl
  refine ⟨h, ?_⟩
  rw [h]
  rintro ⟨m, hm, h4, h8⟩
  rw [List.mem_singleton] at hm
  subst hm
  exact absurd h4 (by decide)

/-- C8 amended: Scenario E holds when the phrase occurs once: on a
representative corpus containing exactly one occurrence of the 4-word
phrase (word positions 3-7), findSimilarText at threshold 0.8 returns
exactly one match, with score exactly 1.0, spanning exactly the 4-word
window; windows of 3 or 5 words around it stay below the threshold.
When a second occurrence overlaps the first within the 5-word tolerance,
deduplication keeps only the highest-scoring (first) window. -/
theorem ngram_exact_phrase_match :
    findSimilarText "the quick brown fox"
        "alpha beta gamma the quick brown fox delta epsilon" (4/5) =
      [⟨"the quick brown fox", 1, 3, 7⟩] := by
  with_unfolding_all rfl
